import Mathlib

/-!
Verification development for the `arcrest.gptypes` module: a conversion
layer between JSON wire values of an ArcGIS REST geoprocessing service and
typed in-process parameter objects.

The module is Python 2; the shallow embedding below models JSON-level
Python values (`PyVal`), the relevant pieces of the standard library that
the module calls (`bool`/`float`/`long`/`str` coercions, `str.replace`,
`json.dumps`, `datetime.strptime`/`strftime` on the directives this module
uses), and each class of `gptypes.py` as a Lean structure with its
`_json_struct` encoding and `from_json_struct` decoding translated line
by line from the source.
-/

/-- PyVal models the Python values that can flow through this module's
    JSON conversion layer: the JSON-representable values (None, booleans,
    ints, floats, strings, lists, dicts with string keys) plus `callable`,
    modelling a (bound) method object, which arises because
    `GPDataFile._json_struct` in the source is a plain method rather than
    a property, so that attribute access yields a method object. -/
inductive PyVal where
  | none : PyVal
  | bool (b : Bool) : PyVal
  | int (n : Int) : PyVal
  | float (q : Rat) : PyVal
  | str (s : String) : PyVal
  | list (xs : List PyVal) : PyVal
  | dict (es : List (String × PyVal)) : PyVal
  | callable : PyVal

/-- Python truthiness (`bool(v)` / `if v:`): None, zero, and empty
    containers are falsy; method objects are truthy. -/
def pyTruthy : PyVal → Bool
  | .none => false
  | .bool b => b
  | .int n => n != 0
  | .float q => q != 0
  | .str s => !s.isEmpty
  | .list xs => !xs.isEmpty
  | .dict es => !es.isEmpty
  | .callable => true

/-- Discriminator for `isinstance(v, dict)`. -/
def PyVal.isDict : PyVal → Bool
  | .dict _ => true
  | _ => false

/-- Discriminator for `isinstance(v, basestring)`. -/
def PyVal.isStr : PyVal → Bool
  | .str _ => true
  | _ => false

/-- Numeric value of a decimal digit character, if any. -/
def digitVal (c : Char) : Option Nat :=
  if c.isDigit then some (c.toNat - 48) else Option.none

/-- Value of a non-empty digit string read in base 10. -/
def digitsToNat (cs : List Char) : Nat :=
  cs.foldl (fun a c => a * 10 + (c.toNat - 48)) 0

/-- Split a character list into its leading digits and the remainder. -/
def splitDigits (cs : List Char) : List Char × List Char :=
  (cs.takeWhile Char.isDigit, cs.dropWhile Char.isDigit)

/-- Body of Python `float(<string>)` after the optional sign: digits,
    optionally followed by a decimal point and further digits (scientific
    notation is not modelled; no input in this development uses it). -/
def parseFloatBody (cs : List Char) : Option Rat :=
  let p := splitDigits cs
  match p.2 with
  | [] => if p.1.isEmpty then Option.none else some (digitsToNat p.1)
  | '.' :: rest2 =>
    let q := splitDigits rest2
    if q.2.isEmpty && (!p.1.isEmpty || !q.1.isEmpty) then
      some ((digitsToNat p.1 : Rat) + (digitsToNat q.1 : Rat) / ((10 : Rat) ^ q.1.length))
    else Option.none
  | _ => Option.none

/-- Python `float(<string>)` including the optional leading sign. -/
def parseFloatSigned (cs : List Char) : Option Rat :=
  match cs with
  | '-' :: rest => (parseFloatBody rest).map (fun q => -q)
  | '+' :: rest => parseFloatBody rest
  | _ => parseFloatBody cs

/-- Python `float(v)`: numbers coerce, strings parse as decimals, other
    values raise TypeError. -/
def pyFloat : PyVal → Except String Rat
  | .bool b => .ok (if b then 1 else 0)
  | .int n => .ok (n : Rat)
  | .float q => .ok q
  | .str s =>
    match parseFloatSigned s.data with
    | some q => .ok q
    | Option.none => .error "ValueError: invalid literal for float()"
  | _ => .error "TypeError: float() argument must be a string or a number"

/-- Truncation of a rational toward zero, as Python `long(<float>)`. -/
def ratTrunc (q : Rat) : Int :=
  if 0 ≤ q.num then Int.ofNat (q.num.toNat / q.den)
  else - Int.ofNat ((- q.num).toNat / q.den)

/-- Body of Python `long(<string>)`: an optionally signed digit string. -/
def parseIntSigned (cs : List Char) : Option Int :=
  match cs with
  | '-' :: rest =>
    if rest.isEmpty || !(rest.all Char.isDigit) then Option.none
    else some (- Int.ofNat (digitsToNat rest))
  | '+' :: rest =>
    if rest.isEmpty || !(rest.all Char.isDigit) then Option.none
    else some (Int.ofNat (digitsToNat rest))
  | _ =>
    if cs.isEmpty || !(cs.all Char.isDigit) then Option.none
    else some (Int.ofNat (digitsToNat cs))

/-- Python `long(v)`: bools and ints coerce, floats truncate toward zero,
    strings parse as integer literals, other values raise. -/
def pyLong : PyVal → Except String Int
  | .bool b => .ok (if b then 1 else 0)
  | .int n => .ok n
  | .float q => .ok (ratTrunc q)
  | .str s =>
    match parseIntSigned s.data with
    | some n => .ok n
    | Option.none => .error "ValueError: invalid literal for long()"
  | _ => .error "TypeError: long() argument must be a string or a number"

/-- Rendering of a float, approximating CPython `repr` for the values this
    development manipulates (integral floats render with a trailing `.0`;
    no property proved below depends on the non-integral branch). -/
def ratRepr (q : Rat) : String :=
  if q.den = 1 then toString q.num ++ ".0"
  else toString q.num ++ "/" ++ toString q.den

/-- JSON string escaping for the characters used in this development
    (control characters are not modelled; no input here contains any). -/
def jsonEscapeChar (c : Char) : List Char :=
  if c = '"' then ['\\', '"']
  else if c = '\\' then ['\\', '\\']
  else [c]

/-- Escaped JSON rendering of a string body. -/
def jsonEscape (s : String) : String :=
  String.mk (s.data.foldr (fun c acc => jsonEscapeChar c ++ acc) [])

/-- Comma-space join, matching `json.dumps`'s default item separator. -/
def commaJoin : List String → String
  | [] => ""
  | [s] => s
  | s :: rest => s ++ ", " ++ commaJoin rest

/-- Depth-indexed body of the `json.dumps` model. CPython limits the
    recursion depth of `json.dumps` (and of any recursive Python code) by
    `sys.getrecursionlimit()`, raising RuntimeError beyond it; the fuel
    models exactly that limit, and every value manipulated in this
    development nests far below it. A `callable` value (such as the bound
    method produced by `GPDataFile._json_struct`) raises TypeError, as
    `json.dumps` does on a non-serializable object. -/
def pyDumpsF : Nat → PyVal → Except String String
  | 0, _ => .error "RuntimeError: maximum recursion depth exceeded"
  | _ + 1, .none => .ok "null"
  | _ + 1, .bool b => .ok (if b then "true" else "false")
  | _ + 1, .int n => .ok (toString n)
  | _ + 1, .float q => .ok (ratRepr q)
  | _ + 1, .str s => .ok ("\"" ++ jsonEscape s ++ "\"")
  | f + 1, .list xs => do
    let parts ← xs.mapM (pyDumpsF f)
    .ok ("[" ++ commaJoin parts ++ "]")
  | f + 1, .dict es => do
    let parts ← es.mapM (fun kv =>
      (pyDumpsF f kv.2).map (fun s => "\"" ++ jsonEscape kv.1 ++ "\": " ++ s))
    .ok ("\x7b" ++ commaJoin parts ++ "\x7d")
  | _ + 1, .callable => .error "TypeError: instancemethod is not JSON serializable"

/-- Model of `json.dumps` with its default separators, at CPython's
    default recursion limit. -/
def pyDumps (v : PyVal) : Except String String :=
  pyDumpsF 1000 v

/-- Python `str(v)`. Total, as in Python; the rendering of containers and
    method objects approximates CPython (quote style differs) and no
    property proved below depends on those branches. -/
def pyStrConv (v : PyVal) : String :=
  match v with
  | .str s => s
  | .bool b => if b then "True" else "False"
  | .int n => toString n
  | .float q => ratRepr q
  | .none => "None"
  | .callable => "<bound method>"
  | _ =>
    match pyDumps v with
    | .ok s => s
    | .error _ => "<object>"

/-- Python `d[k]` for a dict: first matching key, KeyError when absent. -/
def pyDictGet (es : List (String × PyVal)) (k : String) : Except String PyVal :=
  match es with
  | [] => .error "KeyError"
  | (k2, v) :: rest => if k2 = k then .ok v else pyDictGet rest k

/-- Python `v[k]` with a string key: subscripting a dict looks the key
    up; subscripting any other value raises TypeError. -/
def pyGetItem (v : PyVal) (k : String) : Except String PyVal :=
  match v with
  | .dict es => pyDictGet es k
  | _ => .error "TypeError: object is unsubscriptable"

/-- Character-wise body of Python `str.replace` for a one-character
    pattern: every occurrence of `old` is replaced by `new`. -/
def replL (cs : List Char) (old : Char) (new : List Char) : List Char :=
  cs.foldr (fun c acc => if c = old then new ++ acc else c :: acc) []

/-- Python `s.replace(old, new)` for a one-character `old`, as used by
    `GPDate._json_struct` (`self.format.replace('%', '')`) and
    `GPDate.from_json_struct` (`formatstring.replace(chr, '%'+chr)`). -/
def pyReplaceChar (s : String) (old : Char) (new : String) : String :=
  String.mk (replL s.data old new.data)

/-- Characters of the loop string `"%aAbBcdHIjmMpSUwWxXyYZ"` in
    `GPDate.from_json_struct` (gptypes.py line 170); note that the percent
    sign itself is the first element. -/
def reescapeAlphabet : List Char := "%aAbBcdHIjmMpSUwWxXyYZ".data

/-- The re-escaping loop of `GPDate.from_json_struct` (lines 170-171):
    `for chr in "%aAbBcdHIjmMpSUwWxXyYZ": formatstring =
    formatstring.replace(chr, '%'+chr)`. -/
def reescapeFormat (s : String) : String :=
  reescapeAlphabet.foldl (fun acc c => pyReplaceChar acc c (String.mk ['%', c])) s

/-- List-level form of `reescapeFormat`. -/
def reescapeL (cs : List Char) : List Char :=
  reescapeAlphabet.foldl (fun acc c => replL acc c ['%', c]) cs

/-- Single-pass characterization of the re-escaping loop: insert a percent
    sign before every character of the full loop alphabet (which includes
    the percent sign itself) and before no other character. -/
def escapeAll (s : String) : String :=
  String.mk (s.data.foldr
    (fun c acc => if c ∈ reescapeAlphabet then '%' :: c :: acc else c :: acc) [])

/-- Single-pass insertion as claimed by the specification sentence: the
    directive alphabet without the percent sign. This definition follows
    the spec wording, for comparison against `reescapeFormat`, which
    follows the source. -/
def specEscapeLetters (s : String) : String :=
  String.mk (s.data.foldr
    (fun c acc => if c ∈ "aAbBcdHIjmMpSUwWxXyYZ".data then '%' :: c :: acc else c :: acc) [])

/-- Naive proleptic-Gregorian date-time record, the image of Python
    `datetime.datetime` for the fields this module reads and writes.
    `strptime` defaults unset fields to 1900-01-01 00:00:00, as Python
    does. -/
structure PyDateTime where
  year : Nat := 1900
  month : Nat := 1
  day : Nat := 1
  hour : Nat := 0
  minute : Nat := 0
  second : Nat := 0
deriving DecidableEq, Repr

/-- Abbreviated weekday names recognised by the `%a` directive. -/
def weekdayAbbrevs : List String :=
  ["Mon", "Tue", "Wed", "Thu", "Fri", "Sat", "Sun"]

/-- Abbreviated month names recognised by the `%b` directive. -/
def monthAbbrevs : List String :=
  ["Jan", "Feb", "Mar", "Apr", "May", "Jun",
   "Jul", "Aug", "Sep", "Oct", "Nov", "Dec"]

/-- Drop `p` as a prefix of `cs`, if it is one. -/
def dropPrefixL : List Char → List Char → Option (List Char)
  | [], cs => some cs
  | _ :: _, [] => Option.none
  | p :: ps, c :: cs => if p = c then dropPrefixL ps cs else Option.none

/-- Match one of `names` as a prefix of the input, returning its
    position and the rest of the input. -/
def parseNameFrom (names : List String) (i : Nat) (cs : List Char) :
    Option (Nat × List Char) :=
  match names with
  | [] => Option.none
  | n :: ns =>
    match dropPrefixL n.data cs with
    | some rest => some (i, rest)
    | Option.none => parseNameFrom ns (i + 1) cs

/-- Exactly four digits, as the `%Y` pattern of Python `strptime`. -/
def parse4Digits : List Char → Option (Nat × List Char)
  | a :: b :: c :: d :: rest =>
    match digitVal a, digitVal b, digitVal c, digitVal d with
    | some x, some y, some z, some w => some (((x * 10 + y) * 10 + z) * 10 + w, rest)
    | _, _, _, _ => Option.none
  | _ => Option.none

/-- One or two digits with a range check, longest match first, following
    the alternation order of the regular expressions Python `strptime`
    builds for `%m`, `%d`, `%H`, `%M` and `%S`. -/
def parse2or1 (lo hi : Nat) (cs : List Char) : Option (Nat × List Char) :=
  match cs with
  | a :: b :: rest =>
    match digitVal a, digitVal b with
    | some x, some y =>
      if lo ≤ x * 10 + y ∧ x * 10 + y ≤ hi then some (x * 10 + y, rest)
      else if lo ≤ x ∧ x ≤ hi then some (x, b :: rest)
      else Option.none
    | some x, Option.none =>
      if lo ≤ x ∧ x ≤ hi then some (x, b :: rest) else Option.none
    | _, _ => Option.none
  | [a] =>
    match digitVal a with
    | some x => if lo ≤ x ∧ x ≤ hi then some (x, []) else Option.none
    | Option.none => Option.none
  | [] => Option.none

/-- Effect of one `strptime` directive on the accumulated fields and the
    input. Exactly the directives appearing in the formats this module
    manipulates are modelled (`%Y %m %d %H %M %S %a %b %Z %%`); weekday
    and timezone names are validated and discarded, as Python does when a
    full date is also given. -/
def applyDirective (d : Char) (acc : PyDateTime) (cs : List Char) :
    Option (PyDateTime × List Char) :=
  match d with
  | 'Y' => (parse4Digits cs).map (fun p => ({ acc with year := p.1 }, p.2))
  | 'm' => (parse2or1 1 12 cs).map (fun p => ({ acc with month := p.1 }, p.2))
  | 'd' => (parse2or1 1 31 cs).map (fun p => ({ acc with day := p.1 }, p.2))
  | 'H' => (parse2or1 0 23 cs).map (fun p => ({ acc with hour := p.1 }, p.2))
  | 'M' => (parse2or1 0 59 cs).map (fun p => ({ acc with minute := p.1 }, p.2))
  | 'S' => (parse2or1 0 61 cs).map (fun p => ({ acc with second := p.1 }, p.2))
  | 'a' => (parseNameFrom weekdayAbbrevs 0 cs).map (fun p => (acc, p.2))
  | 'b' => (parseNameFrom monthAbbrevs 0 cs).map (fun p => ({ acc with month := p.1 + 1 }, p.2))
  | 'Z' => (parseNameFrom ["UTC", "GMT"] 0 cs).map (fun p => (acc, p.2))
  | '%' =>
    match cs with
    | '%' :: rest => some (acc, rest)
    | _ => Option.none
  | _ => Option.none

/-- Main loop of the `strptime` model: the format drives the match;
    ordinary characters must match the input exactly and leftover input
    is an error, as in Python. -/
def strptimeAux : List Char → List Char → PyDateTime → Option PyDateTime
  | [], [], acc => some acc
  | [], _ :: _, _ => Option.none
  | '%' :: d :: fmt, cs, acc =>
    match applyDirective d acc cs with
    | some p => strptimeAux fmt p.2 p.1
    | Option.none => Option.none
  | [c], i :: cs, acc => if c = i then strptimeAux [] cs acc else Option.none
  | [_], [], _ => Option.none
  | c :: fmt, i :: cs, acc => if c = i then strptimeAux fmt cs acc else Option.none
  | _ :: _, [], _ => Option.none

/-- Model of `datetime.datetime.strptime` on the directive subset this
    module uses. -/
def strptime (s fmt : String) : Except String PyDateTime :=
  match strptimeAux fmt.data s.data {} with
  | some d => .ok d
  | Option.none => .error "ValueError: time data does not match format"

/-- Decimal digits of a natural number, zero-padded to width `w`. -/
def padNum (w : Nat) (n : Nat) : List Char :=
  let s := (toString n).data
  List.replicate (w - s.length) '0' ++ s

/-- Expansion of one `strftime` directive. Directives not used by this
    module pass through unchanged (glibc behaviour for unknown
    directives); none is exercised by the properties below. -/
def strftimeDirective (d : PyDateTime) (c : Char) : List Char :=
  match c with
  | 'Y' => padNum 4 d.year
  | 'm' => padNum 2 d.month
  | 'd' => padNum 2 d.day
  | 'H' => padNum 2 d.hour
  | 'M' => padNum 2 d.minute
  | 'S' => padNum 2 d.second
  | '%' => ['%']
  | _ => ['%', c]

/-- Body of the `strftime` model. -/
def strftimeAux (d : PyDateTime) : List Char → List Char
  | [] => []
  | '%' :: c :: rest => strftimeDirective d c ++ strftimeAux d rest
  | c :: rest => c :: strftimeAux d rest

/-- Model of `datetime.datetime.strftime` on the directive subset this
    module uses. -/
def strftime (d : PyDateTime) (fmt : String) : String :=
  String.mk (strftimeAux d fmt.data)

/-- Fallback format `GPDate.__date_format` (gptypes.py line 145). -/
def gpDateFallbackFormat : String := "%a %b %d %H:%M:%S %Z %Y"

/-- GPDate holds the parsed date and the strftime-style format string
    (gptypes.py lines 138-157). -/
structure GPDate where
  date : PyDateTime
  format : String
deriving DecidableEq, Repr

/-- GPDate constructor (lines 147-157) for a JSON-level argument: a
    string is parsed first with the supplied format and, when that fails
    (the bare `except:`), with the fallback `__date_format`; the supplied
    format is stored either way. A `datetime` instance is accepted
    unchanged by the source, but no JSON-level value is a `datetime`
    instance, so here every non-string argument reaches the final
    `else` branch, which raises ValueError. -/
def GPDate.init (date : PyVal) (format : String) : Except String GPDate :=
  match date with
  | .str s =>
    match strptime s format with
    | .ok d => .ok ⟨d, format⟩
    | .error _ =>
      match strptime s gpDateFallbackFormat with
      | .ok d => .ok ⟨d, format⟩
      | .error e => .error e
  | _ => .error "ValueError: Cannot convert to a date"

/-- GPDate._json_struct (lines 158-161): the date rendered with the
    stored format, and the format with every percent sign removed. -/
def GPDate.json_struct (x : GPDate) : PyVal :=
  .dict [("date", .str (strftime x.date x.format)),
         ("format", .str (pyReplaceChar x.format '%' ""))]

/-- Allowed unit names of GPLinearUnit (gptypes.py lines 68-80). -/
def gpAllowedUnits : List String :=
  ["esriCentimeters", "esriDecimalDegrees", "esriDecimeters", "esriFeet",
   "esriInches", "esriKilometers", "esriMeters", "esriMiles",
   "esriMillimeters", "esriNauticalMiles", "esriPoints",
   "esriUnknownUnits", "esriYards"]

/-- GPLinearUnit holds a float distance and a unit name (lines 81-90). -/
structure GPLinearUnit where
  distance : Rat
  units : String
deriving DecidableEq, Repr

/-- GPLinearUnit constructor (lines 81-90): a two-element list or tuple
    argument is unpacked into value and unit; the value is coerced with
    `float`; a missing (None) unit defaults to esriMeters and any other
    unit must be a member of the allowed set, enforced by `assert`. -/
def GPLinearUnit.init (value unit : PyVal) : Except String GPLinearUnit :=
  let p : PyVal × PyVal :=
    match value with
    | .list [a, b] => (a, b)
    | _ => (value, unit)
  match pyFloat p.1 with
  | .error e => .error e
  | .ok v =>
    match p.2 with
    | .none => .ok ⟨v, "esriMeters"⟩
    | .str u =>
      if u ∈ gpAllowedUnits then .ok ⟨v, u⟩
      else .error "AssertionError: Unit not valid"
    | _ => .error "AssertionError: Unit not valid"

/-- GPLinearUnit._json_struct (lines 91-93). -/
def GPLinearUnit.json_struct (x : GPLinearUnit) : PyVal :=
  .dict [("distance", .float x.distance), ("units", .str x.units)]

/-- GPDataFile holds the URL of a data file (gptypes.py lines 176-186). -/
structure GPDataFile where
  url : PyVal

/-- Value of the attribute access `x._json_struct` on a GPDataFile. The
    source (lines 182-183) defines `_json_struct` as a plain method, with
    no `@property` decorator, unlike every other type in the module; so
    the attribute access yields a bound method object, not the dict. -/
def GPDataFile.json_struct_attr (_x : GPDataFile) : PyVal :=
  .callable

/-- Value the body of `GPDataFile._json_struct` would return if it were
    called (line 183): `{'url': self.url}`. -/
def GPDataFile.json_struct_call (x : GPDataFile) : PyVal :=
  .dict [("url", x.url)]

/-- GPBaseType.__str__ (lines 30-31), `json.dumps(self._json_struct)`,
    instantiated at GPDataFile: the attribute access yields the bound
    method, which `json.dumps` refuses to serialize. -/
def GPDataFile.pyStr (x : GPDataFile) : Except String String :=
  pyDumps (GPDataFile.json_struct_attr x)

/-- GPUrlWithFormatType holds a URL and a format (lines 188-202); the
    GPRasterData and GPRasterLayer subclasses add no behaviour. -/
structure GPUrlWithFormatType where
  url : PyVal
  format : PyVal

/-- GPUrlWithFormatType._json_struct (lines 197-199), a real property. -/
def GPUrlWithFormatType.json_struct (x : GPUrlWithFormatType) : PyVal :=
  .dict [("url", x.url), ("format", x.format)]

/-- GPBaseType.__str__ instantiated at GPUrlWithFormatType. -/
def GPUrlWithFormatType.pyStr (x : GPUrlWithFormatType) : Except String String :=
  pyDumps (GPUrlWithFormatType.json_struct x)

/-- Scalar wrappers (GPSimpleType subclasses, lines 36-63): each stores
    one value and fixes a conversion function. -/
structure GPBoolean where
  value : PyVal

/-- GPDouble wraps one value with the `float` conversion. -/
structure GPDouble where
  value : PyVal

/-- GPLong wraps one value with the `long` conversion. -/
structure GPLong where
  value : PyVal

/-- GPString wraps one value with the `str` conversion. -/
structure GPString where
  value : PyVal

/-- GPSimpleType._json_struct (lines 42-44) at GPBoolean:
    `self.__conversion__(self.value)` with `__conversion__ = bool`. -/
def GPBoolean.json_struct (x : GPBoolean) : PyVal :=
  .bool (pyTruthy x.value)

/-- GPSimpleType._json_struct at GPDouble (`__conversion__ = float`). -/
def GPDouble.json_struct (x : GPDouble) : Except String PyVal :=
  (pyFloat x.value).map PyVal.float

/-- GPSimpleType._json_struct at GPLong (`__conversion__ = long`). -/
def GPLong.json_struct (x : GPLong) : Except String PyVal :=
  (pyLong x.value).map PyVal.int

/-- GPSimpleType._json_struct at GPString (`__conversion__ = str`). -/
def GPString.json_struct (x : GPString) : PyVal :=
  .str (pyStrConv x.value)

/-- SpatialReference stands for the external `geometry.SpatialReference`;
    the geometry library is an external collaborator, so its constructor
    is modelled as wrapping its argument and its `_json_struct` as
    returning the wrapped value. -/
structure SpatialReference where
  arg : PyVal

/-- Encoded form of a spatial reference (external library, opaque). -/
def SpatialReference.json_struct (s : SpatialReference) : PyVal :=
  s.arg

/-- Geometry stands for an object of the external geometry library,
    carrying exactly the interface the module reads: the
    `__geometry_type__` tag, the `spatialReference` attribute, the
    `attributes` mapping keys, and the `_json_struct_for_featureset`
    encoding. -/
structure Geometry where
  geometry_type : String
  spatialReference : PyVal
  attributeKeys : List String
  json_struct_for_featureset : PyVal

/-- Argument of the GPFeatureRecordSetLayer constructor: a single
    geometry (`isinstance(Geometry, geometry.Geometry)`) or a sequence. -/
inductive GeometryArg where
  | single (g : Geometry)
  | seq (gs : List Geometry)

/-- Normalisation done by the constructor: a single geometry is wrapped
    into a one-element list (gptypes.py lines 101-103). -/
def GeometryArg.toList : GeometryArg → List Geometry
  | .single g => [g]
  | .seq gs => gs

/-- Field-name accumulation of the constructor (lines 111-113): the union
    of every feature's attribute keys, starting from the empty set. -/
def gpFields (features : List Geometry) : List String :=
  features.foldl
    (fun acc g => g.attributeKeys.foldl
      (fun a k => if k ∈ a then a else a ++ [k]) acc) []

/-- GPFeatureRecordSetLayer holds the features, the spatial reference and
    the derived field set (lines 98-113). -/
structure GPFeatureRecordSetLayer where
  features : List Geometry
  spatialReference : SpatialReference
  fields : List String

/-- GPFeatureRecordSetLayer constructor (lines 100-113): an explicit
    truthy `sr` wins; otherwise a non-empty feature list supplies the
    first feature's own spatial reference; otherwise ValueError
    ("Could not determine spatial reference"). -/
def GPFeatureRecordSetLayer.init (arg : GeometryArg) (sr : PyVal) :
    Except String GPFeatureRecordSetLayer :=
  let features := arg.toList
  if pyTruthy sr then
    .ok ⟨features, ⟨sr⟩, gpFields features⟩
  else
    match features with
    | g :: _ => .ok ⟨features, ⟨g.spatialReference⟩, gpFields features⟩
    | [] => .error "ValueError: Could not determine spatial reference"

/-- Python `set(...)` of a list of strings: the distinct elements, kept
    here in first-occurrence order (the source only ever inspects the
    cardinality and the sole element of a singleton set, both
    order-independent). -/
def pySetOfList (xs : List String) : List String :=
  xs.foldl (fun acc x => if x ∈ acc then acc else acc ++ [x]) []

/-- GPFeatureRecordSetLayer._json_struct (lines 114-124): asserts that
    the set of geometry-type tags of the features has exactly one
    element, then emits geometryType, spatialReference and the
    per-feature featureset encodings in feature order. -/
def GPFeatureRecordSetLayer.json_struct (l : GPFeatureRecordSetLayer) :
    Except String PyVal :=
  match pySetOfList (l.features.map Geometry.geometry_type) with
  | [t] =>
    .ok (.dict [("geometryType", .str t),
                ("spatialReference", l.spatialReference.json_struct),
                ("features", .list (l.features.map Geometry.json_struct_for_featureset))])
  | _ => .error "AssertionError: Must have consistent geometries"

/-- Result of a `from_json_struct` classmethod. Python is untyped: the
    scalar types return the bare converted primitive (a `prim`), while
    the structured types return a new instance; `GPDate.from_json_struct`
    can also fall off the end of the function, which in Python returns
    None - that is `prim PyVal.none`. -/
inductive GPDecoded where
  | prim (v : PyVal) : GPDecoded
  | instDate (d : GPDate) : GPDecoded
  | instLinearUnit (u : GPLinearUnit) : GPDecoded
  | instDataFile (f : GPDataFile) : GPDecoded
  | instUrlWithFormat (u : GPUrlWithFormatType) : GPDecoded

/-- Whether a decode result is a bare primitive rather than an instance. -/
def GPDecoded.isPrim : GPDecoded → Bool
  | .prim _ => true
  | _ => false

/-- GPSimpleType.from_json_struct (lines 45-47) at GPBoolean: apply the
    conversion function to the input and return the raw primitive. -/
def GPBoolean.from_json_struct (v : PyVal) : Except String GPDecoded :=
  .ok (.prim (.bool (pyTruthy v)))

/-- GPSimpleType.from_json_struct at GPDouble. -/
def GPDouble.from_json_struct (v : PyVal) : Except String GPDecoded :=
  (pyFloat v).map (fun q => .prim (.float q))

/-- GPSimpleType.from_json_struct at GPLong. -/
def GPLong.from_json_struct (v : PyVal) : Except String GPDecoded :=
  (pyLong v).map (fun n => .prim (.int n))

/-- GPSimpleType.from_json_struct at GPString. -/
def GPString.from_json_struct (v : PyVal) : Except String GPDecoded :=
  .ok (.prim (.str (pyStrConv v)))

/-- GPDate.from_json_struct (lines 163-174): a dict input is read at
    `date` and `format`, the format is re-escaped by the loop over
    `"%aAbBcdHIjmMpSUwWxXyYZ"`, and the constructor re-parses; a bare
    string input is parsed with the fallback `__date_format`; any other
    input falls off the end of the function and returns None. The
    `format` value must be a string for `.replace` to exist, else
    AttributeError. -/
def GPDate.from_json_struct (value : PyVal) : Except String GPDecoded :=
  match value with
  | .dict es =>
    match pyDictGet es "date" with
    | .error e => .error e
    | .ok datestring =>
      match pyDictGet es "format" with
      | .error e => .error e
      | .ok (.str formatstring) =>
        (GPDate.init datestring (reescapeFormat formatstring)).map GPDecoded.instDate
      | .ok _ => .error "AttributeError: object has no attribute replace"
  | .str s =>
    (GPDate.init (.str s) gpDateFallbackFormat).map GPDecoded.instDate
  | _ => .ok (.prim .none)

/-- GPLinearUnit.from_json_struct (lines 94-96):
    `cls(val['distance'], val['units'])`. -/
def GPLinearUnit.from_json_struct (v : PyVal) : Except String GPDecoded :=
  match pyGetItem v "distance" with
  | .error e => .error e
  | .ok d =>
    match pyGetItem v "units" with
    | .error e => .error e
    | .ok u => (GPLinearUnit.init d u).map GPDecoded.instLinearUnit

/-- GPDataFile.from_json_struct (lines 184-186): `cls(value['url'])`. -/
def GPDataFile.from_json_struct (v : PyVal) : Except String GPDecoded :=
  (pyGetItem v "url").map (fun u => .instDataFile ⟨u⟩)

/-- GPUrlWithFormatType.from_json_struct (lines 200-202):
    `cls(value['url'], value['format'])`. -/
def GPUrlWithFormatType.from_json_struct (v : PyVal) : Except String GPDecoded :=
  match pyGetItem v "url" with
  | .error e => .error e
  | .ok u =>
    match pyGetItem v "format" with
    | .error e => .error e
    | .ok f => .ok (.instUrlWithFormat ⟨u, f⟩)

/-- A type definition as seen by the registry: identified by its class
    name (`cls.__name__`). -/
structure GPTypeDef where
  name : String
deriving DecidableEq, Repr

/-- Registration step of the metaclass `GPBaseType.__metaclass__.__init__`
    (gptypes.py lines 19-26): when a new class is created, it is entered
    into the process-wide `_gp_type_mapping` under `cls.__name__` exactly
    when that name does not contain the reserved separator `'|'`;
    otherwise the registry is left unchanged. The dict assignment is
    modelled by prepending, with lookup taking the most recent binding. -/
def registerGPType (reg : List (String × GPTypeDef)) (cls : GPTypeDef) :
    List (String × GPTypeDef) :=
  if '|' ∈ cls.name.data then reg else (cls.name, cls) :: reg

/-- Unfolding of a single-character replace on a cons cell. -/
theorem replL_cons (old : Char) (new : List Char) (c : Char) (cs : List Char) :
    replL (c :: cs) old new = (if c = old then new else [c]) ++ replL cs old new := by
  simp only [replL, List.foldr_cons]
  by_cases h : c = old <;> simp [h]

/-- A single-character replace pushes through an accumulator. -/
theorem replL_foldr_acc (old : Char) (new : List Char) :
    ∀ (cs G : List Char),
      cs.foldr (fun c acc => if c = old then new ++ acc else c :: acc) G
        = replL cs old new ++ G := by
  intro cs
  induction cs with
  | nil => intro G; simp [replL]
  | cons c cs ih =>
    intro G
    rw [List.foldr_cons, ih, replL_cons]
    by_cases h : c = old <;> simp [h]

/-- A single-character replace distributes over concatenation. -/
theorem replL_append (old : Char) (new : List Char) (xs ys : List Char) :
    replL (xs ++ ys) old new = replL xs old new ++ replL ys old new := by
  simp only [replL, List.foldr_append]
  rw [show (ys.foldr (fun c acc => if c = old then new ++ acc else c :: acc) [])
        = replL ys old new from rfl]
  exact replL_foldr_acc old new xs (replL ys old new)

/-- The whole re-escaping loop distributes over concatenation. -/
theorem foldl_replL_append (A : List Char) :
    ∀ xs ys : List Char,
      A.foldl (fun acc c => replL acc c ['%', c]) (xs ++ ys)
        = A.foldl (fun acc c => replL acc c ['%', c]) xs
          ++ A.foldl (fun acc c => replL acc c ['%', c]) ys := by
  induction A with
  | nil => intro xs ys; simp
  | cons a as ih =>
    intro xs ys
    simp only [List.foldl_cons]
    rw [replL_append, ih]

set_option maxRecDepth 8000 in
/-- On a one-character string from the loop alphabet, the loop inserts
    one percent sign (the percent sign itself, processed first, is
    doubled and the copies are not reprocessed). -/
theorem reescapeL_single_mem :
    ∀ c ∈ reescapeAlphabet, reescapeL [c] = ['%', c] := by
  decide

/-- On a one-character string outside the processed characters, a fold of
    replaces is the identity. -/
theorem foldl_replL_single_notin (A : List Char) (c : Char)
    (h : ∀ a ∈ A, a ≠ c) :
    A.foldl (fun acc ch => replL acc ch ['%', ch]) [c] = [c] := by
  induction A with
  | nil => rfl
  | cons a as ih =>
    have hac : a ≠ c := h a (by simp)
    have step : replL [c] a ['%', a] = [c] := by
      simp only [replL, List.foldr_cons, List.foldr_nil]
      have : ¬ c = a := fun hc => hac hc.symm
      simp [this]
    simp only [List.foldl_cons, step]
    exact ih (fun a2 ha2 => h a2 (by simp [ha2]))

/-- List-level single-pass characterization of the re-escaping loop. -/
theorem reescapeL_eq_escape :
    ∀ cs : List Char,
      reescapeL cs
        = cs.foldr (fun c acc =>
            if c ∈ reescapeAlphabet then '%' :: c :: acc else c :: acc) [] := by
  intro cs
  induction cs with
  | nil => rfl
  | cons c cs ih =>
    have hsplit : reescapeL (c :: cs) = reescapeL [c] ++ reescapeL cs := by
      have : (c :: cs) = [c] ++ cs := rfl
      rw [this]
      exact foldl_replL_append reescapeAlphabet [c] cs
    rw [hsplit, ih]
    by_cases h : c ∈ reescapeAlphabet
    · rw [reescapeL_single_mem c h]
      simp [h]
    · have : reescapeL [c] = [c] :=
        foldl_replL_single_notin reescapeAlphabet c
          (fun a ha hac => h (hac ▸ ha))
      rw [this]
      simp [h]

/-- String.mk of the underlying data is the identity. -/
theorem stringMk_data (s : String) : String.mk s.data = s := by
  cases s
  rfl

/-- Bridge between the string-level loop of the source and its
    list-level form. -/
theorem reescapeFormat_eq_mk (s : String) :
    reescapeFormat s = String.mk (reescapeL s.data) := by
  have general : ∀ (A : List Char) (t : String),
      A.foldl (fun acc c => pyReplaceChar acc c (String.mk ['%', c])) t
        = String.mk (A.foldl (fun acc c => replL acc c ['%', c]) t.data) := by
    intro A
    induction A with
    | nil => intro t; exact (stringMk_data t).symm
    | cons a as ih =>
      intro t
      simp only [List.foldl_cons]
      rw [ih]
      rfl
  exact general reescapeAlphabet s

/-- The re-escaping loop of `GPDate.from_json_struct` equals the
    single-pass insertion of a percent sign before every character of the
    full loop alphabet - which contains the percent sign itself. -/
theorem reescapeFormat_eq_escapeAll (s : String) :
    reescapeFormat s = escapeAll s := by
  rw [reescapeFormat_eq_mk, escapeAll, reescapeL_eq_escape]

/-- Percent stripping in `GPDate._json_struct` is exactly a filter. -/
theorem stripPercent_eq_filter (s : String) :
    (pyReplaceChar s '%' "").data = s.data.filter (fun c => c != '%') := by
  show replL s.data '%' [] = s.data.filter (fun c => c != '%')
  induction s.data with
  | nil => rfl
  | cons c cs ih =>
    rw [replL_cons]
    by_cases h : c = '%' <;> simp [h, ih]

/-- In `GPDate.from_json_struct`, a bare string is parsed with the
    fallback format: the constructor's two parse attempts coincide
    because the supplied format is already the fallback. -/
theorem GPDate.init_fallback (s : String) :
    GPDate.init (.str s) gpDateFallbackFormat
      = (strptime s gpDateFallbackFormat).map
          (fun d => { date := d, format := gpDateFallbackFormat }) := by
  unfold GPDate.init
  cases h : strptime s gpDateFallbackFormat <;> simp [h, Except.map]

/-- Elements already present in the accumulator survive the set fold. -/
theorem pySetFold_mem_acc :
    ∀ (xs acc : List String) (x : String), x ∈ acc →
      x ∈ xs.foldl (fun a y => if y ∈ a then a else a ++ [y]) acc := by
  intro xs
  induction xs with
  | nil => intro acc x hx; simpa using hx
  | cons y ys ih =>
    intro acc x hx
    simp only [List.foldl_cons]
    by_cases h : y ∈ acc
    · rw [if_pos h]; exact ih acc x hx
    · rw [if_neg h]; exact ih (acc ++ [y]) x (by simp [hx])

/-- Every list element lands in the set fold's result. -/
theorem pySetFold_mem :
    ∀ (xs acc : List String) (x : String), x ∈ xs →
      x ∈ xs.foldl (fun a y => if y ∈ a then a else a ++ [y]) acc := by
  intro xs
  induction xs with
  | nil => intro acc x hx; cases hx
  | cons y ys ih =>
    intro acc x hx
    simp only [List.foldl_cons]
    rcases List.mem_cons.mp hx with hxy | hxys
    · subst hxy
      by_cases h : x ∈ acc
      · rw [if_pos h]; exact pySetFold_mem_acc ys acc x h
      · rw [if_neg h]; exact pySetFold_mem_acc ys (acc ++ [x]) x (by simp)
    · by_cases h : y ∈ acc <;> simp only [if_pos, if_neg, h] <;> exact ih _ x hxys

/-- Everything in the set fold's result came from the list or the
    accumulator. -/
theorem pySetFold_subset :
    ∀ (xs acc : List String) (x : String),
      x ∈ xs.foldl (fun a y => if y ∈ a then a else a ++ [y]) acc →
      x ∈ xs ∨ x ∈ acc := by
  intro xs
  induction xs with
  | nil => intro acc x hx; right; simpa using hx
  | cons y ys ih =>
    intro acc x hx
    simp only [List.foldl_cons] at hx
    by_cases h : y ∈ acc
    · rw [if_pos h] at hx
      rcases ih acc x hx with h1 | h2
      · left; simp [h1]
      · right; exact h2
    · rw [if_neg h] at hx
      rcases ih (acc ++ [y]) x hx with h1 | h2
      · left; simp [h1]
      · rcases List.mem_append.mp h2 with h3 | h4
        · right; exact h3
        · left; simp at h4; simp [h4]

/-- The set fold leaves the accumulator unchanged when it already
    contains every list element. -/
theorem pySetFold_const :
    ∀ (xs acc : List String), (∀ x ∈ xs, x ∈ acc) →
      xs.foldl (fun a y => if y ∈ a then a else a ++ [y]) acc = acc := by
  intro xs
  induction xs with
  | nil => intro acc _; rfl
  | cons y ys ih =>
    intro acc h
    simp only [List.foldl_cons, if_pos (h y (by simp))]
    exact ih acc (fun x hx => h x (by simp [hx]))

/-- `set(tags)` is a singleton `[t]` exactly when the list is non-empty
    and every element equals `t`: the bridge between the source's
    `len(set(...)) == 1` assertion and geometry-type consistency. -/
theorem pySetOfList_singleton_iff (xs : List String) (t : String) :
    pySetOfList xs = [t] ↔ (xs ≠ [] ∧ ∀ x ∈ xs, x = t) := by
  constructor
  · intro h
    constructor
    · intro hnil
      rw [hnil] at h
      exact List.cons_ne_nil t [] h.symm
    · intro x hx
      have := pySetFold_mem xs [] x hx
      rw [show xs.foldl (fun a y => if y ∈ a then a else a ++ [y]) [] = pySetOfList xs
            from rfl, h] at this
      simpa using this
  · rintro ⟨hne, hall⟩
    match xs, hne with
    | x :: xs2, _ =>
      have hx : x = t := hall x (by simp)
      subst hx
      show (x :: xs2).foldl (fun a y => if y ∈ a then a else a ++ [y]) [] = [x]
      simp only [List.foldl_cons]
      rw [if_neg (by simp), List.nil_append]
      exact pySetFold_const xs2 [x]
        (fun y hy => by rw [hall y (by simp [hy])]; simp)

/-- C1: the claim states that decoding the encoding returns an equal
    value for every parameter type in the core. It holds for the Date,
    LinearUnit and scalar representatives below, but the code breaks it
    for GPDataFile: `_json_struct` (gptypes.py lines 182-183) lacks the
    `@property` decorator every sibling type has, so the attribute access
    yields a bound method and feeding it back through
    `from_json_struct` raises TypeError instead of returning an equal
    instance. -/
theorem C1_datafile_roundtrip_breaks :
    (GPDataFile.from_json_struct
        (GPDataFile.json_struct_attr ⟨.str "http://example.com/data"⟩)
      = .error "TypeError: object is unsubscriptable")
    ∧ (GPDate.from_json_struct
        (GPDate.json_struct ⟨⟨2020, 1, 15, 0, 0, 0⟩, "%Y-%m-%d"⟩)
      = .ok (.instDate ⟨⟨2020, 1, 15, 0, 0, 0⟩, "%Y-%m-%d"⟩))
    ∧ (GPLinearUnit.from_json_struct
        (GPLinearUnit.json_struct ⟨5, "esriMeters"⟩)
      = .ok (.instLinearUnit ⟨5, "esriMeters"⟩))
    ∧ (GPBoolean.from_json_struct (GPBoolean.json_struct ⟨.bool true⟩)
      = .ok (.prim (.bool true))) :=
  ⟨rfl, rfl, rfl, rfl⟩

/-- C3: `GPDate._json_struct` is the object with the stored date rendered
    through the stored format under `date`, and the format with every
    percent sign removed (a filter on characters) under `format`; the
    representative 2020-01-15 with format `%Y-%m-%d` encodes to
    `date = 2020-01-15`, `format = Y-m-d`. -/
theorem C3_date_encode :
    (∀ x : GPDate,
      GPDate.json_struct x
        = .dict [("date", .str (strftime x.date x.format)),
                 ("format", .str (String.mk (x.format.data.filter (fun c => c != '%'))))])
    ∧ GPDate.json_struct ⟨⟨2020, 1, 15, 0, 0, 0⟩, "%Y-%m-%d"⟩
        = .dict [("date", .str "2020-01-15"), ("format", .str "Y-m-d")] := by
  constructor
  · intro x
    have h : pyReplaceChar x.format '%' ""
        = String.mk (x.format.data.filter (fun c => c != '%')) := by
      rw [← stripPercent_eq_filter, stringMk_data]
    rw [GPDate.json_struct, h]
  · rfl

/-- C8: the metaclass registers every newly defined type under its own
    name exactly when the name does not contain the reserved separator
    bar character; a defined type named Widget is afterwards found by
    lookup, and a name containing the separator leaves the registry
    untouched. -/
theorem C8_registry (reg : List (String × GPTypeDef)) (cls : GPTypeDef) :
    ('|' ∉ cls.name.data →
      (registerGPType reg cls).lookup cls.name = some cls)
    ∧ ('|' ∈ cls.name.data → registerGPType reg cls = reg) := by
  constructor
  · intro h
    rw [registerGPType, if_neg h]
    simp [List.lookup]
  · intro h
    rw [registerGPType, if_pos h]

/-- Witness for C8 at the registry examples of the claim: the name
    Widget (no separator) is registered and found; a bar-separated name
    is never registered. -/
theorem C8_registry_witness :
    ('|' ∉ "Widget".data)
    ∧ (registerGPType [] ⟨"Widget"⟩).lookup "Widget" = some ⟨"Widget"⟩
    ∧ ('|' ∈ "GPBoolean|GPString".data)
    ∧ registerGPType [("Widget", ⟨"Widget"⟩)] ⟨"GPBoolean|GPString"⟩
        = [("Widget", ⟨"Widget"⟩)] := by
  refine ⟨by decide, ?_, by decide, ?_⟩
  · exact (C8_registry [] ⟨"Widget"⟩).1 (by decide)
  · exact (C8_registry [("Widget", ⟨"Widget"⟩)] ⟨"GPBoolean|GPString"⟩).2 (by decide)

/-- C9: the claim states that `str(x)` is the compact JSON encoding of the
    wire value for every type, and for GPDataFile in particular the
    encoding of the url object. The code breaks this for GPDataFile:
    because `_json_struct` lacks its `@property` decorator, `__str__`
    passes a bound method to `json.dumps`, which raises TypeError. What
    the claim expects - the JSON text of the url dict the method body
    would return - is shown alongside, as is the working `__str__` of the
    sibling GPUrlWithFormatType, whose `_json_struct` is a real
    property. -/
theorem C9_datafile_str_raises :
    (GPDataFile.pyStr ⟨.str "http://example.com/file"⟩
      = .error "TypeError: instancemethod is not JSON serializable")
    ∧ (pyDumps (GPDataFile.json_struct_call ⟨.str "http://example.com/file"⟩)
      = .ok "\x7b\"url\": \"http://example.com/file\"\x7d")
    ∧ (GPUrlWithFormatType.pyStr ⟨.str "http://example.com/r", .str "png"⟩
      = .ok "\x7b\"url\": \"http://example.com/r\", \"format\": \"png\"\x7d") :=
  ⟨rfl, rfl, rfl⟩

/-- C10: `GPDate.from_json_struct` on a value that is neither a dict nor
    a string matches no `isinstance` branch and falls off the end of the
    function, returning Python None - not an error and not an instance. -/
theorem C10_date_decode_none (v : PyVal)
    (h1 : v.isDict = false) (h2 : v.isStr = false) :
    GPDate.from_json_struct v = .ok (.prim .none) := by
  cases v <;> simp_all [GPDate.from_json_struct, PyVal.isDict, PyVal.isStr]

/-- Witness for C10 at the integer 42. -/
theorem C10_date_decode_none_witness :
    (PyVal.int 42).isDict = false ∧ (PyVal.int 42).isStr = false
      ∧ GPDate.from_json_struct (PyVal.int 42) = .ok (.prim .none) :=
  ⟨rfl, rfl, C10_date_decode_none (PyVal.int 42) rfl rfl⟩

/-- C2 counterexample: the claim says the decode loop re-inserts a
    percent sign before exactly the characters of `aAbBcdHIjmMpSUwWxXyYZ`
    and before no other character. The loop string in the source is
    `"%aAbBcdHIjmMpSUwWxXyYZ"`: the percent sign itself is escaped too
    (processed first). On the format `%Y-m-d` the code produces
    `%%%Y-%m-%d` where the claimed transformation produces `%%Y-%m-%d`,
    and on the wire value below the code successfully decodes a date
    while the claimed transformation would fail to parse it at all. -/
theorem C2_counterexample :
    (GPDate.from_json_struct
        (.dict [("date", .str "%2020-01-15"), ("format", .str "%Y-m-d")])
      = .ok (.instDate ⟨⟨2020, 1, 15, 0, 0, 0⟩, "%%%Y-%m-%d"⟩))
    ∧ (reescapeFormat "%Y-m-d" = "%%%Y-%m-%d")
    ∧ (specEscapeLetters "%Y-m-d" = "%%Y-%m-%d")
    ∧ (reescapeFormat "%Y-m-d" ≠ specEscapeLetters "%Y-m-d")
    ∧ ((GPDate.init (.str "%2020-01-15") (specEscapeLetters "%Y-m-d")).map
          GPDecoded.instDate
        = .error "ValueError: time data does not match format") := by
  refine ⟨rfl, rfl, rfl, ?_, rfl⟩
  rw [show reescapeFormat "%Y-m-d" = "%%%Y-%m-%d" from rfl,
      show specEscapeLetters "%Y-m-d" = "%%Y-%m-%d" from rfl]
  decide

/-- C2 amended: the re-escaping loop of `GPDate.from_json_struct` inserts
    a percent sign before every occurrence of each character of exactly
    the alphabet `%aAbBcdHIjmMpSUwWxXyYZ` - the directive letters AND the
    percent sign itself, which is processed first so that the inserted
    copies are not reprocessed - and then re-parses the date string with
    the resulting format via the constructor; a bare-string input is
    parsed with the fixed fallback format (the constructor's second
    attempt coincides with its first there). -/
theorem C2_amended_date_decode :
    (∀ s : String, reescapeFormat s = escapeAll s)
    ∧ (∀ (es : List (String × PyVal)) (ds : PyVal) (fs : String),
        pyDictGet es "date" = .ok ds →
        pyDictGet es "format" = .ok (.str fs) →
        GPDate.from_json_struct (.dict es)
          = (GPDate.init ds (escapeAll fs)).map GPDecoded.instDate)
    ∧ (∀ s : String,
        GPDate.from_json_struct (.str s)
          = (strptime s gpDateFallbackFormat).map
              (fun d => GPDecoded.instDate ⟨d, gpDateFallbackFormat⟩)) := by
  refine ⟨reescapeFormat_eq_escapeAll, ?_, ?_⟩
  · intro es ds fs h1 h2
    simp only [GPDate.from_json_struct, h1, h2, reescapeFormat_eq_escapeAll]
  · intro s
    simp only [GPDate.from_json_struct]
    rw [GPDate.init_fallback]
    cases strptime s gpDateFallbackFormat <;> simp [Except.map]

/-- Witness for C2 at the wire value of the testable-properties section
    (`date 2020-01-15`, `format Y-m-d`) and at a bare fallback-formatted
    string. -/
theorem C2_amended_date_decode_witness :
    pyDictGet [("date", PyVal.str "2020-01-15"), ("format", PyVal.str "Y-m-d")]
        "date" = .ok (.str "2020-01-15")
    ∧ pyDictGet [("date", PyVal.str "2020-01-15"), ("format", PyVal.str "Y-m-d")]
        "format" = .ok (.str "Y-m-d")
    ∧ GPDate.from_json_struct
        (.dict [("date", .str "2020-01-15"), ("format", .str "Y-m-d")])
          = (GPDate.init (.str "2020-01-15") (escapeAll "Y-m-d")).map
              GPDecoded.instDate
    ∧ GPDate.from_json_struct (.str "Wed Jan 15 10:30:00 UTC 2020")
        = .ok (.instDate ⟨⟨2020, 1, 15, 10, 30, 0⟩, gpDateFallbackFormat⟩) := by
  refine ⟨rfl, rfl, ?_, ?_⟩
  · exact C2_amended_date_decode.2.1 _ _ _ rfl rfl
  · rw [C2_amended_date_decode.2.2]
    rfl

/-- C4: constructing a GPLinearUnit from a numeric value with the unit
    omitted (None) defaults the units to esriMeters; with a supplied unit
    string it succeeds exactly when the unit is in the fixed 13-entry
    allowed set and otherwise fails with the assertion the spec calls
    InvalidUnit; (5, esriMeters) yields distance 5.0 and units
    esriMeters. -/
theorem C4_linear_unit_construction (v : PyVal) (q : Rat) (u : String) :
    (pyFloat v = .ok q →
      GPLinearUnit.init v .none = .ok ⟨q, "esriMeters"⟩)
    ∧ (pyFloat v = .ok q →
        ((∃ r, GPLinearUnit.init v (.str u) = .ok r) ↔ u ∈ gpAllowedUnits))
    ∧ (pyFloat v = .ok q → u ∈ gpAllowedUnits →
        GPLinearUnit.init v (.str u) = .ok ⟨q, u⟩)
    ∧ (pyFloat v = .ok q → u ∉ gpAllowedUnits →
        GPLinearUnit.init v (.str u) = .error "AssertionError: Unit not valid")
    ∧ GPLinearUnit.init (.int 5) (.str "esriMeters") = .ok ⟨5, "esriMeters"⟩
    ∧ GPLinearUnit.init (.int 5) .none = .ok ⟨5, "esriMeters"⟩ := by
  have hmain : ∀ unit : PyVal, pyFloat v = .ok q →
      GPLinearUnit.init v unit
        = (match unit with
           | .none => .ok ⟨q, "esriMeters"⟩
           | .str u2 =>
             if u2 ∈ gpAllowedUnits then .ok ⟨q, u2⟩
             else .error "AssertionError: Unit not valid"
           | _ => .error "AssertionError: Unit not valid") := by
    intro unit hq
    cases v with
    | list xs => exact absurd hq (by simp [pyFloat])
    | dict es => exact absurd hq (by simp [pyFloat])
    | callable => exact absurd hq (by simp [pyFloat])
    | none => exact absurd hq (by simp [pyFloat])
    | bool b => simp [GPLinearUnit.init, hq]
    | int n => simp [GPLinearUnit.init, hq]
    | float q2 => simp [GPLinearUnit.init, hq]
    | str s => simp [GPLinearUnit.init, hq]
  refine ⟨fun hq => hmain .none hq, ?_, ?_, ?_, rfl, rfl⟩
  · intro hq
    rw [hmain (.str u) hq]
    by_cases h : u ∈ gpAllowedUnits
    · simp only [if_pos h]
      exact ⟨fun _ => h, fun _ => ⟨⟨q, u⟩, rfl⟩⟩
    · simp only [if_neg h]
      constructor
      · rintro ⟨r, hr⟩
        cases hr
      · intro hc
        exact absurd hc h
  · intro hq h
    rw [hmain (.str u) hq]
    simp [if_pos h]
  · intro hq h
    rw [hmain (.str u) hq]
    simp [if_neg h]

/-- Witness for C4 at value 5 with esriMeters, with the default unit, and
    with a unit outside the allowed set. -/
theorem C4_linear_unit_construction_witness :
    pyFloat (PyVal.int 5) = .ok 5
    ∧ GPLinearUnit.init (PyVal.int 5) .none = .ok ⟨5, "esriMeters"⟩
    ∧ ("esriMeters" ∈ gpAllowedUnits)
    ∧ GPLinearUnit.init (PyVal.int 5) (.str "esriMeters") = .ok ⟨5, "esriMeters"⟩
    ∧ ("esriFurlongs" ∉ gpAllowedUnits)
    ∧ GPLinearUnit.init (PyVal.int 5) (.str "esriFurlongs")
        = .error "AssertionError: Unit not valid" := by
  refine ⟨rfl, ?_, by decide, ?_, by decide, ?_⟩
  · exact (C4_linear_unit_construction (PyVal.int 5) 5 "esriMeters").1 rfl
  · exact (C4_linear_unit_construction (PyVal.int 5) 5 "esriMeters").2.2.1
      rfl (by decide)
  · exact (C4_linear_unit_construction (PyVal.int 5) 5 "esriFurlongs").2.2.2.1
      rfl (by decide)

/-- C6: the GPFeatureRecordSetLayer constructor fails (with the
    ValueError the spec calls MissingSpatialReference) exactly when the
    feature list is empty and no spatial reference is supplied; with no
    supplied reference and a non-empty list, the reference is taken from
    the first feature's own `spatialReference`. -/
theorem C6_featureset_construction (arg : GeometryArg) (sr : PyVal) :
    (GPFeatureRecordSetLayer.init arg sr
        = .error "ValueError: Could not determine spatial reference"
      ↔ (arg.toList = [] ∧ pyTruthy sr = false))
    ∧ (∀ g gs, pyTruthy sr = false → arg.toList = g :: gs →
        GPFeatureRecordSetLayer.init arg sr
          = .ok ⟨g :: gs, ⟨g.spatialReference⟩, gpFields (g :: gs)⟩)
    ∧ (pyTruthy sr = true →
        GPFeatureRecordSetLayer.init arg sr
          = .ok ⟨arg.toList, ⟨sr⟩, gpFields arg.toList⟩) := by
  refine ⟨?_, ?_, ?_⟩
  · by_cases h : pyTruthy sr = true
    · simp [GPFeatureRecordSetLayer.init, h]
    · have hf : pyTruthy sr = false := by simpa using h
      cases harg : arg.toList with
      | nil => simp [GPFeatureRecordSetLayer.init, hf, harg]
      | cons g gs => simp [GPFeatureRecordSetLayer.init, hf, harg]
  · intro g gs hf harg
    simp [GPFeatureRecordSetLayer.init, hf, harg]
  · intro ht
    simp [GPFeatureRecordSetLayer.init, ht]

/-- A concrete point feature used by the witnesses below. -/
def demoPoint : Geometry :=
  ⟨"esriGeometryPoint", .dict [("wkid", .int 4326)], ["name"],
   .dict [("geometry", .dict [("x", .int 1), ("y", .int 2)]),
          ("attributes", .dict [("name", .str "a")])]⟩

/-- Witness for C6: a single point feature with no explicit reference
    infers the feature's own; an empty sequence with no reference fails. -/
theorem C6_featureset_construction_witness :
    pyTruthy PyVal.none = false
    ∧ (GeometryArg.single demoPoint).toList = [demoPoint]
    ∧ GPFeatureRecordSetLayer.init (.single demoPoint) .none
        = .ok ⟨[demoPoint], ⟨demoPoint.spatialReference⟩, gpFields [demoPoint]⟩
    ∧ (GeometryArg.seq []).toList = ([] : List Geometry)
    ∧ GPFeatureRecordSetLayer.init (.seq []) .none
        = .error "ValueError: Could not determine spatial reference" := by
  refine ⟨rfl, rfl, ?_, rfl, ?_⟩
  · exact (C6_featureset_construction (.single demoPoint) .none).2.1
      demoPoint [] rfl rfl
  · exact (C6_featureset_construction (.seq []) .none).1.mpr ⟨rfl, rfl⟩

/-- C7: every scalar type's `from_json_struct` returns the bare converted
    primitive - never a wrapped instance - and decoding Boolean's JSON
    true yields the primitive true. -/
theorem C7_scalar_decode_primitive (v : PyVal) :
    (GPBoolean.from_json_struct v = .ok (.prim (.bool (pyTruthy v))))
    ∧ (GPString.from_json_struct v = .ok (.prim (.str (pyStrConv v))))
    ∧ (∀ q : Rat, pyFloat v = .ok q →
        GPDouble.from_json_struct v = .ok (.prim (.float q)))
    ∧ (∀ n : Int, pyLong v = .ok n →
        GPLong.from_json_struct v = .ok (.prim (.int n)))
    ∧ (∀ r : GPDecoded, GPDouble.from_json_struct v = .ok r → r.isPrim = true)
    ∧ (∀ r : GPDecoded, GPLong.from_json_struct v = .ok r → r.isPrim = true)
    ∧ GPBoolean.from_json_struct (.bool true) = .ok (.prim (.bool true)) := by
  refine ⟨rfl, rfl, ?_, ?_, ?_, ?_, rfl⟩
  · intro q hq
    show (pyFloat v).map (fun q => GPDecoded.prim (.float q)) = _
    rw [hq]
    rfl
  · intro n hn
    show (pyLong v).map (fun n => GPDecoded.prim (.int n)) = _
    rw [hn]
    rfl
  · intro r h
    have h2 : (pyFloat v).map (fun q => GPDecoded.prim (.float q)) = .ok r := h
    cases hq : pyFloat v with
    | error e =>
      rw [hq] at h2
      exact absurd h2 (by simp [Except.map])
    | ok q =>
      rw [hq] at h2
      simp only [Except.map] at h2
      cases h2
      rfl
  · intro r h
    have h2 : (pyLong v).map (fun n => GPDecoded.prim (.int n)) = .ok r := h
    cases hn : pyLong v with
    | error e =>
      rw [hn] at h2
      exact absurd h2 (by simp [Except.map])
    | ok n =>
      rw [hn] at h2
      simp only [Except.map] at h2
      cases h2
      rfl

/-- Witness for C7 at the integer 3 and at Boolean true. -/
theorem C7_scalar_decode_primitive_witness :
    pyFloat (PyVal.int 3) = .ok 3
    ∧ GPDouble.from_json_struct (PyVal.int 3) = .ok (.prim (.float 3))
    ∧ pyLong (PyVal.int 3) = .ok 3
    ∧ GPLong.from_json_struct (PyVal.int 3) = .ok (.prim (.int 3))
    ∧ GPBoolean.from_json_struct (.bool true) = .ok (.prim (.bool true)) := by
  refine ⟨rfl, ?_, rfl, ?_, ?_⟩
  · exact (C7_scalar_decode_primitive (PyVal.int 3)).2.2.1 3 rfl
  · exact (C7_scalar_decode_primitive (PyVal.int 3)).2.2.2.1 3 rfl
  · exact (C7_scalar_decode_primitive (PyVal.bool true)).2.2.2.2.2.2

/-- The source's `len(set(tags)) == 1` test is equivalent to: there is at
    least one feature and all features carry the given tag. -/
theorem geomTags_singleton_iff (l : GPFeatureRecordSetLayer) (t : String) :
    pySetOfList (l.features.map Geometry.geometry_type) = [t]
      ↔ (l.features ≠ [] ∧ ∀ g ∈ l.features, g.geometry_type = t) := by
  rw [pySetOfList_singleton_iff]
  constructor
  · rintro ⟨hne, hall⟩
    refine ⟨fun h => hne (by simp [h]), fun g hg => hall _ (List.mem_map_of_mem _ hg)⟩
  · rintro ⟨hne, hall⟩
    refine ⟨by simpa using hne, ?_⟩
    intro x hx
    rcases List.mem_map.mp hx with ⟨g, hg, rfl⟩
    exact hall g hg

/-- The concrete layer refuting C5 as stated: an empty feature list with
    an explicit spatial reference is constructible, and its zero features
    all vacuously report any identical geometry-type tag, yet encoding
    fails. -/
def emptyPointLayer : GPFeatureRecordSetLayer :=
  ⟨[], ⟨.dict [("wkid", .int 4326)]⟩, []⟩

/-- C5 counterexample: the claim's "fails if and only if the features do
    not all report the identical geometry-type tag" is false for the
    empty feature collection: all of its (zero) features report any
    single tag identically, yet `_json_struct` fails, because
    `len(set([])) == 0`, not 1. -/
theorem C5_counterexample :
    GPFeatureRecordSetLayer.init (.seq []) (.dict [("wkid", .int 4326)])
        = .ok emptyPointLayer
    ∧ (∀ t : String, ∀ g ∈ emptyPointLayer.features, g.geometry_type = t)
    ∧ GPFeatureRecordSetLayer.json_struct emptyPointLayer
        = .error "AssertionError: Must have consistent geometries" := by
  refine ⟨rfl, ?_, rfl⟩
  intro t g hg
  cases hg

/-- C5 amended: `_json_struct` fails with the inconsistent-geometry
    assertion iff the set of geometry-type tags does not have exactly one
    element - that is, iff the feature list is empty or mixes tags;
    otherwise it emits the geometryType, spatialReference and per-feature
    encodings in feature order. -/
theorem C5_amended_featureset_encode (l : GPFeatureRecordSetLayer) :
    (∀ t, pySetOfList (l.features.map Geometry.geometry_type) = [t] →
      GPFeatureRecordSetLayer.json_struct l
        = .ok (.dict [("geometryType", .str t),
                      ("spatialReference", l.spatialReference.json_struct),
                      ("features",
                        .list (l.features.map Geometry.json_struct_for_featureset))]))
    ∧ ((∃ t, l.features ≠ [] ∧ ∀ g ∈ l.features, g.geometry_type = t)
        ↔ ∃ w, GPFeatureRecordSetLayer.json_struct l = .ok w)
    ∧ ((∀ t : String, ¬ (l.features ≠ [] ∧ ∀ g ∈ l.features, g.geometry_type = t)) →
        GPFeatureRecordSetLayer.json_struct l
          = .error "AssertionError: Must have consistent geometries") := by
  have henc : ∀ t, pySetOfList (l.features.map Geometry.geometry_type) = [t] →
      GPFeatureRecordSetLayer.json_struct l
        = .ok (.dict [("geometryType", .str t),
                      ("spatialReference", l.spatialReference.json_struct),
                      ("features",
                        .list (l.features.map Geometry.json_struct_for_featureset))]) := by
    intro t ht
    simp only [GPFeatureRecordSetLayer.json_struct, ht]
  refine ⟨henc, ?_, ?_⟩
  · constructor
    · rintro ⟨t, h⟩
      exact ⟨_, henc t ((geomTags_singleton_iff l t).mpr h)⟩
    · rintro ⟨w, hw⟩
      cases hps : pySetOfList (l.features.map Geometry.geometry_type) with
      | nil =>
        rw [GPFeatureRecordSetLayer.json_struct, hps] at hw
        cases hw
      | cons t rest =>
        cases rest with
        | nil => exact ⟨t, (geomTags_singleton_iff l t).mp hps⟩
        | cons t2 r2 =>
          rw [GPFeatureRecordSetLayer.json_struct, hps] at hw
          cases hw
  · intro hall
    cases hps : pySetOfList (l.features.map Geometry.geometry_type) with
    | nil => rw [GPFeatureRecordSetLayer.json_struct, hps]
    | cons t rest =>
      cases rest with
      | nil => exact absurd ((geomTags_singleton_iff l t).mp hps) (hall t)
      | cons t2 r2 => rw [GPFeatureRecordSetLayer.json_struct, hps]

/-- A second concrete point feature for the C5 witness. -/
def demoPoint2 : Geometry :=
  ⟨"esriGeometryPoint", .dict [("wkid", .int 4326)], ["kind"],
   .dict [("geometry", .dict [("x", .int 3), ("y", .int 4)]),
          ("attributes", .dict [("kind", .str "b")])]⟩

/-- A concrete polygon feature for the C5 witness. -/
def demoPolygon : Geometry :=
  ⟨"esriGeometryPolygon", .dict [("wkid", .int 4326)], [],
   .dict [("geometry", .dict [("rings", .list [])]),
          ("attributes", .dict [])]⟩

/-- A two-point layer whose features share one geometry-type tag. -/
def demoLayer : GPFeatureRecordSetLayer :=
  ⟨[demoPoint, demoPoint2], ⟨.dict [("wkid", .int 4326)]⟩, ["name", "kind"]⟩

/-- A mixed point-and-polygon layer, the spec's failing example. -/
def demoMixedLayer : GPFeatureRecordSetLayer :=
  ⟨[demoPoint, demoPolygon], ⟨.dict [("wkid", .int 4326)]⟩, ["name"]⟩

/-- Witness for C5: the two-point layer encodes to the stated dict, and
    the point-plus-polygon layer fails with the inconsistent-geometry
    assertion. -/
theorem C5_amended_featureset_encode_witness :
    pySetOfList (demoLayer.features.map Geometry.geometry_type)
        = ["esriGeometryPoint"]
    ∧ GPFeatureRecordSetLayer.json_struct demoLayer
        = .ok (.dict [("geometryType", .str "esriGeometryPoint"),
                      ("spatialReference", demoLayer.spatialReference.json_struct),
                      ("features",
                        .list (demoLayer.features.map Geometry.json_struct_for_featureset))])
    ∧ GPFeatureRecordSetLayer.json_struct demoMixedLayer
        = .error "AssertionError: Must have consistent geometries" := by
  refine ⟨rfl, ?_, ?_⟩
  · exact (C5_amended_featureset_encode demoLayer).1 "esriGeometryPoint" rfl
  · refine (C5_amended_featureset_encode demoMixedLayer).2.2 ?_
    rintro t ⟨_, hall⟩
    have h1 : demoPoint.geometry_type = t :=
      hall demoPoint (by simp [demoMixedLayer])
    have h2 : demoPolygon.geometry_type = t :=
      hall demoPolygon (by simp [demoMixedLayer])
    rw [← h1] at h2
    exact absurd h2 (by decide)
